import Mathlib

/-!
Verification of the stage-aware retry and reconciliation orchestrator of the
`automate-powerbi-export` repository, as a shallow embedding in Lean 4.

Each definition is translated from the Python source file named in its doc
comment.  Machine integers are modelled as `Int`/`Nat` (Python integers are
unbounded), Python floats as exact rationals `ℚ`, Python dictionaries as
association lists in insertion order, `datetime` values as explicit
calendar-field records, and collaborator I/O (queries, file export, artifact
loading) as explicit outcome parameters of type `Except String _`.
-/

/-- `ErrorType` from `src/utils/retry_manager.py`: categorization of error
types for the retry strategy. -/
inductive ErrorType where
  | SESSION_EXPIRED
  | CONNECTION_TIMEOUT
  | MEMORY_ERROR
  | DATA_ERROR
  | UNKNOWN
deriving DecidableEq, Repr

/-- `ProcessingStage` from `src/core/types.py`: stages of month processing. -/
inductive ProcessingStage where
  | EXPORT
  | VALIDATION
  | COMPLETE
deriving DecidableEq, Repr

/-- `MonthResult` from `src/core/types.py`: result of processing a month.
Defaults mirror the dataclass defaults. -/
structure MonthResult where
  year : Int
  month : Int
  rows : Nat := 0
  memory_mb : ℚ := 0
  export_success : Bool := false
  validation_success : Bool := false
  last_stage : ProcessingStage := ProcessingStage.EXPORT
  error_message : Option String := none
deriving DecidableEq, Repr

/-! ### Case-insensitive substring matching (Python `keyword in message.lower()`) -/

/-- `a.startsWithL b` holds when `a` is an initial segment of `b`
(character lists). -/
def startsWithL : List Char → List Char → Bool
  | [], _ => true
  | _ :: _, [] => false
  | a :: as_, b :: bs => a == b && startsWithL as_ bs

/-- Substring containment on character lists: Python's `needle in hay`. -/
def containsL (needle : List Char) : List Char → Bool
  | [] => needle.isEmpty
  | c :: rest => startsWithL needle (c :: rest) || containsL needle rest

/-- Python's `str.lower()`, modelled characterwise (the keyword lists are
ASCII). -/
def lowerStr (s : String) : String := String.mk (s.data.map Char.toLower)

/-- `needle in hay` on strings. -/
def containsSubstr (needle hay : String) : Bool := containsL needle.data hay.data

/-! ### Error classifier (`RetryManager._categorize_error`) -/

/-- Session keyword group from `RetryManager._categorize_error`. -/
def sessionKeywords : List String :=
  ["session", "expired", "session id cannot be found", "session does not exist"]

/-- Connection/timeout keyword group from `RetryManager._categorize_error`. -/
def timeoutKeywords : List String :=
  ["timeout", "timed out", "connection lost", "connection either timed out"]

/-- Memory keyword group from `RetryManager._categorize_error`. -/
def memoryKeywords : List String :=
  ["memory", "out of memory", "memoryerror", "insufficient memory"]

/-- Data keyword group from `RetryManager._categorize_error`. -/
def dataKeywords : List String :=
  ["data", "dataset", "query execution"]

/-- `RetryManager._categorize_error` from `src/utils/retry_manager.py`:
lowercases the message and tests the keyword groups in fixed order
(session, timeout, memory, data), defaulting to `UNKNOWN`. -/
def categorize_error (error_message : String) : ErrorType :=
  let error_lower := lowerStr error_message
  if sessionKeywords.any (fun k => containsSubstr k error_lower) then
    ErrorType.SESSION_EXPIRED
  else if timeoutKeywords.any (fun k => containsSubstr k error_lower) then
    ErrorType.CONNECTION_TIMEOUT
  else if memoryKeywords.any (fun k => containsSubstr k error_lower) then
    ErrorType.MEMORY_ERROR
  else if dataKeywords.any (fun k => containsSubstr k error_lower) then
    ErrorType.DATA_ERROR
  else
    ErrorType.UNKNOWN

/-! ### Timestamps (`datetime`) -/

/-- A `datetime.datetime` value, by calendar fields. -/
structure Timestamp where
  year : Nat
  month : Nat
  day : Nat
  hour : Nat
  minute : Nat
  second : Nat
  microsecond : Nat
deriving DecidableEq, Repr

/-- Field bounds under which the fixed-width ISO rendering is faithful;
every real `datetime` satisfies them. -/
def Timestamp.Valid (t : Timestamp) : Prop :=
  t.year < 10000 ∧ t.month < 100 ∧ t.day < 100 ∧ t.hour < 100 ∧
    t.minute < 100 ∧ t.second < 100 ∧ t.microsecond < 1000000

instance (t : Timestamp) : Decidable t.Valid := by
  unfold Timestamp.Valid; infer_instance

/-! ### Failure Ledger entries and the base retry manager -/

/-- `FailedMonth` from `src/utils/retry_manager.py`. -/
structure FailedMonth where
  year : Int
  month : Int
  error_message : String
  error_type : ErrorType
  attempt_count : Nat := 1
  last_attempt_time : Timestamp
  first_error_time : Timestamp
deriving DecidableEq, Repr

/-- `RetryManager` state from `src/utils/retry_manager.py`.  The Python dict
`failed_months` keyed by `(year, month)` is an association list in insertion
order. -/
structure RetryManager where
  max_retry_attempts : Nat := 5
  retry_delay_seconds : Int := 30
  failed_months : List ((Int × Int) × FailedMonth) := []
deriving DecidableEq, Repr

/-- `RetryManager.get_retry_delay` from `src/utils/retry_manager.py`. -/
def get_retry_delay (m : RetryManager) (failed_month : FailedMonth) : Int :=
  let base_delay := m.retry_delay_seconds
  if failed_month.error_type = ErrorType.SESSION_EXPIRED then
    min base_delay 10
  else if failed_month.error_type = ErrorType.CONNECTION_TIMEOUT then
    base_delay * failed_month.attempt_count
  else if failed_month.error_type = ErrorType.MEMORY_ERROR then
    base_delay * 2 * failed_month.attempt_count
  else
    base_delay

/-! ### Reconciliation Engine (`ValidationManager.validate_month`) -/

/-- One record of `ValidationManager.validation_results` from
`src/utils/validation_manager.py` (the presentation-only `month_name` and
`validation_time` fields are not modelled). -/
structure ValidationRecord where
  year : Int
  month : Int
  dax_sum : ℚ
  dataframe_sum : ℚ
  difference : ℚ
  percentage_difference : ℚ
  row_count : Nat
  validation_passed : Bool
deriving DecidableEq, Repr

/-- Python's built-in `abs` on a rational. -/
def pyAbs (q : ℚ) : ℚ := if q < 0 then -q else q

/-- `pyAbs` is the absolute value. -/
theorem pyAbs_eq_abs (q : ℚ) : pyAbs q = |q| := by
  unfold pyAbs
  split_ifs with h
  · exact (abs_of_neg h).symm
  · exact (abs_of_nonneg (by linarith)).symm

/-- `ValidationManager.validate_month` from `src/utils/validation_manager.py`:
computes the absolute difference, the percentage difference (defined as 0 when
`dax_sum == 0`), and passes when the percentage difference is below 0.01. -/
def validate_month (year month : Int) (dax_sum dataframe_sum : ℚ)
    (row_count : Nat) : ValidationRecord :=
  let difference := pyAbs (dax_sum - dataframe_sum)
  let percentage_diff := if dax_sum ≠ 0 then difference / dax_sum * 100 else 0
  let validation_passed := percentage_diff < 1/100
  { year := year
    month := month
    dax_sum := dax_sum
    dataframe_sum := dataframe_sum
    difference := difference
    percentage_difference := percentage_diff
    row_count := row_count
    validation_passed := validation_passed }

/-! ### Date window calculation (`DateManager.calculate_12_month_range`) -/

/-- The `while month <= 0: month += 12; year -= 1` loop of
`DateManager.calculate_12_month_range`, run for at most `fuel` iterations. -/
def fixMonthFuel : Nat → Int → Int → Int × Int
  | 0, year, month => (year, month)
  | fuel + 1, year, month =>
      if month ≤ 0 then fixMonthFuel fuel (year - 1) (month + 12)
      else (year, month)

/-- The `while month <= 0: month += 12; year -= 1` loop of
`DateManager.calculate_12_month_range` in `src/utils/date_manager.py`.
`(1 - month).toNat` iterations always suffice (each iteration adds 12), so
this structural definition satisfies the loop equation `fixMonth_unfold`
below. -/
def fixMonth (year month : Int) : Int × Int :=
  fixMonthFuel (1 - month).toNat year month

/-- With a positive month the loop body never runs. -/
theorem fixMonthFuel_of_pos (fuel : Nat) (year month : Int) (h : 0 < month) :
    fixMonthFuel fuel year month = (year, month) := by
  cases fuel with
  | zero => rfl
  | succ k => rw [fixMonthFuel, if_neg (by omega)]

/-- The fuel is irrelevant once it covers the iterations actually needed. -/
theorem fixMonthFuel_congr :
    ∀ (k₁ k₂ : Nat) (year month : Int),
      1 - month ≤ 12 * k₁ → 1 - month ≤ 12 * k₂ →
      fixMonthFuel k₁ year month = fixMonthFuel k₂ year month := by
  intro k₁
  induction k₁ with
  | zero =>
      intro k₂ year month h1 _
      rw [fixMonthFuel, fixMonthFuel_of_pos k₂ year month (by omega)]
  | succ k ih =>
      intro k₂ year month h1 h2
      by_cases hm : month ≤ 0
      · match k₂ with
        | 0 => omega
        | k₂' + 1 =>
            rw [fixMonthFuel, if_pos hm, fixMonthFuel, if_pos hm]
            exact ih k₂' (year - 1) (month + 12) (by omega) (by omega)
      · rw [fixMonthFuel_of_pos _ _ _ (by omega),
            fixMonthFuel_of_pos _ _ _ (by omega)]

/-- `fixMonth` satisfies the source's while-loop equation. -/
theorem fixMonth_unfold (year month : Int) :
    fixMonth year month =
      if month ≤ 0 then fixMonth (year - 1) (month + 12)
      else (year, month) := by
  by_cases hm : month ≤ 0
  · rw [if_pos hm]
    unfold fixMonth
    have hk : (1 - month).toNat = ((1 - month).toNat - 1) + 1 := by omega
    rw [hk, fixMonthFuel, if_pos hm]
    exact fixMonthFuel_congr _ _ _ _ (by omega) (by omega)
  · rw [if_neg hm]
    exact fixMonthFuel_of_pos _ _ _ (by omega)

/-- One-step evaluation: a positive month is already normalized. -/
theorem fixMonth_pos (year month : Int) (h : 0 < month) :
    fixMonth year month = (year, month) :=
  fixMonthFuel_of_pos _ _ _ h

/-- One-step evaluation: a month in `[-11, 0]` is normalized by a single
iteration. -/
theorem fixMonth_nonpos (year month : Int) (h1 : month ≤ 0)
    (h2 : -11 ≤ month) : fixMonth year month = (year - 1, month + 12) := by
  rw [fixMonth_unfold, if_pos h1, fixMonth_pos _ _ (by omega)]

/-- `DateManager.calculate_12_month_range` from `src/utils/date_manager.py`:
12 months generated backwards from the end date, then reversed into
chronological order. -/
def calculate_12_month_range (end_year end_month : Int) : List (Int × Int) :=
  let months :=
    (List.range 12).map (fun (i : Nat) =>
      fixMonth end_year (end_month - (i : Int)))
  months.reverse

/-! ### Association-list operations modelling Python dicts -/

/-- Values of a dict, in insertion order (`dict.values()`). -/
def values {α β : Type} (l : List (α × β)) : List β := l.map Prod.snd

/-- Keys of a dict, in insertion order (`dict.keys()`). -/
def keysOf {α β : Type} (l : List (α × β)) : List α := l.map Prod.fst

/-- `d[k] = v` on a Python dict: replace in place when the key exists,
append otherwise. -/
def insertEntry {α β : Type} [DecidableEq α] (k : α) (v : β) :
    List (α × β) → List (α × β)
  | [] => [(k, v)]
  | (k', v') :: rest =>
      if k' = k then (k, v) :: rest else (k', v') :: insertEntry k v rest

/-- `k in d` on a Python dict. -/
def hasKey {α β : Type} [DecidableEq α] (k : α) (l : List (α × β)) : Bool :=
  l.any (fun kv => kv.1 = k)

/-- `d.get(k)` on a Python dict. -/
def lookupEntry {α β : Type} [DecidableEq α] (k : α) :
    List (α × β) → Option β
  | [] => none
  | (k', v') :: rest => if k' = k then some v' else lookupEntry k rest

/-- Update the value at an existing key in place (`d[k].field = ...`). -/
def mapEntry {α β : Type} [DecidableEq α] (k : α) (f : β → β) :
    List (α × β) → List (α × β)
  | [] => []
  | (k', v') :: rest =>
      if k' = k then (k', f v') :: rest else (k', v') :: mapEntry k f rest

/-- Python truthiness of an optional string (`if s:`): `None` and the empty
string are falsy. -/
def optTruthy : Option String → Bool
  | none => false
  | some s => s ≠ ""

/-- Python `a or b` for an optional string `a` and a string `b`. -/
def pyOrStr (a : Option String) (b : String) : String :=
  match a with
  | none => b
  | some s => if s = "" then b else s

/-! ### Enhanced (stage-aware) Failure Ledger, `src/utils/enhanced_retry_manager.py` -/

/-- `EnhancedFailedMonth` from `src/utils/enhanced_retry_manager.py`. -/
structure EnhancedFailedMonth where
  year : Int
  month : Int
  error_message : String
  error_type : ErrorType
  failed_stage : ProcessingStage
  attempt_count : Nat := 1
  last_attempt_time : Timestamp
  first_error_time : Timestamp
  export_success : Bool := false
  validation_success : Bool := false
  exported_file_path : Option String := none
deriving DecidableEq, Repr

/-- `EnhancedFailedMonth.should_retry_full`. -/
def EnhancedFailedMonth.should_retry_full (e : EnhancedFailedMonth) : Bool :=
  e.failed_stage == ProcessingStage.EXPORT || !e.export_success

/-- `EnhancedFailedMonth.should_retry_validation_only`. -/
def EnhancedFailedMonth.should_retry_validation_only (e : EnhancedFailedMonth) : Bool :=
  e.failed_stage == ProcessingStage.VALIDATION
    && e.export_success
    && e.exported_file_path.isSome

/-- `EnhancedRetryManager` state from `src/utils/enhanced_retry_manager.py`:
the base `RetryManager` attributes plus the separate `enhanced_failed_months`
dict. -/
structure EnhancedRetryManager extends RetryManager where
  enhanced_failed_months : List ((Int × Int) × EnhancedFailedMonth) := []
deriving DecidableEq, Repr

/-- `EnhancedRetryManager.add_failure_from_result`: insert or update the
enhanced entry for `(result.year, result.month)`.  `now` stands for
`datetime.now()`. -/
def add_failure_from_result (m : EnhancedRetryManager) (result : MonthResult)
    (exported_path : Option String) (now : Timestamp) : EnhancedRetryManager :=
  let key := (result.year, result.month)
  let error_type := categorize_error (pyOrStr result.error_message "Unknown error")
  if hasKey key m.enhanced_failed_months then
    let upd : EnhancedFailedMonth → EnhancedFailedMonth := fun failed =>
      { failed with
        attempt_count := failed.attempt_count + 1
        last_attempt_time := now
        error_message := pyOrStr result.error_message failed.error_message
        error_type := error_type
        failed_stage := result.last_stage
        export_success := result.export_success
        validation_success := result.validation_success
        exported_file_path :=
          if optTruthy exported_path then exported_path
          else failed.exported_file_path }
    { m with enhanced_failed_months := mapEntry key upd m.enhanced_failed_months }
  else
    let entry : EnhancedFailedMonth :=
      { year := result.year
        month := result.month
        error_message := pyOrStr result.error_message "Unknown error"
        error_type := error_type
        failed_stage := result.last_stage
        attempt_count := 1
        last_attempt_time := now
        first_error_time := now
        export_success := result.export_success
        validation_success := result.validation_success
        exported_file_path := exported_path }
    { m with enhanced_failed_months := insertEntry key entry m.enhanced_failed_months }

/-- `EnhancedRetryManager.get_validation_only_retries`. -/
def get_validation_only_retries (m : EnhancedRetryManager) :
    List EnhancedFailedMonth :=
  (values m.enhanced_failed_months).filter (fun failed =>
    failed.should_retry_validation_only
      && failed.attempt_count < m.max_retry_attempts)

/-- `EnhancedRetryManager.get_full_retries`. -/
def get_full_retries (m : EnhancedRetryManager) : List EnhancedFailedMonth :=
  (values m.enhanced_failed_months).filter (fun failed =>
    failed.should_retry_full
      && failed.attempt_count < m.max_retry_attempts)

/-! ### Summaries (`RetryManager.get_summary`, `EnhancedRetryManager.get_enhanced_summary`) -/

/-- `ErrorType.value` strings. -/
def errorTypeValue : ErrorType → String
  | ErrorType.SESSION_EXPIRED => "session_expired"
  | ErrorType.CONNECTION_TIMEOUT => "connection_timeout"
  | ErrorType.MEMORY_ERROR => "memory_error"
  | ErrorType.DATA_ERROR => "data_error"
  | ErrorType.UNKNOWN => "unknown"

/-- `RetryManager.should_retry`. -/
def should_retry (m : RetryManager) (year month : Int) : Bool :=
  match lookupEntry (year, month) m.failed_months with
  | none => false
  | some failed => failed.attempt_count < m.max_retry_attempts

/-- `RetryManager.get_failed_months_for_retry`. -/
def get_failed_months_for_retry (m : RetryManager) : List FailedMonth :=
  (values m.failed_months).filter (fun failed =>
    should_retry m failed.year failed.month)

/-- `RetryManager.get_permanent_failures`. -/
def get_permanent_failures (m : RetryManager) : List FailedMonth :=
  (values m.failed_months).filter (fun failed =>
    m.max_retry_attempts ≤ failed.attempt_count)

/-- Python `{:02d}` formatting for the month in `get_summary`'s
`max_attempts_reached` strings (months are nonnegative in practice). -/
def pyFormat02 (n : Int) : String :=
  if 0 ≤ n ∧ n < 10 then "0" ++ toString n else toString n

/-- The dictionary returned by `RetryManager.get_summary`.  When the ledger is
empty the source returns only `{"total_failures": 0}`; the absent keys are
`none`. -/
structure BaseSummary where
  total_failures : Nat
  permanent_failures : Option Nat
  retry_eligible : Option Nat
  error_breakdown : Option (List (String × Nat))
  max_attempts_reached : Option (List String)
deriving DecidableEq, Repr

/-- The `error_counts` accumulation loop in `RetryManager.get_summary`. -/
def errorCounts (fms : List FailedMonth) : List (String × Nat) :=
  fms.foldl (fun counts failed =>
    let et := errorTypeValue failed.error_type
    insertEntry et ((lookupEntry et counts).getD 0 + 1) counts) []

/-- `RetryManager.get_summary` from `src/utils/retry_manager.py`. -/
def get_summary (m : RetryManager) : BaseSummary :=
  if m.failed_months = [] then
    { total_failures := 0
      permanent_failures := none
      retry_eligible := none
      error_breakdown := none
      max_attempts_reached := none }
  else
    { total_failures := m.failed_months.length
      permanent_failures := some (get_permanent_failures m).length
      retry_eligible := some (get_failed_months_for_retry m).length
      error_breakdown := some (errorCounts (values m.failed_months))
      max_attempts_reached := some ((get_permanent_failures m).map (fun f =>
        toString f.year ++ "-" ++ pyFormat02 f.month)) }

/-- The dictionary returned by `EnhancedRetryManager.get_enhanced_summary`:
the base summary updated with stage-aware counts. -/
structure EnhancedSummary where
  base : BaseSummary
  validation_only_failures : Nat
  full_retry_needed : Nat
  stage_export_count : Nat
  stage_validation_count : Nat
deriving DecidableEq, Repr

/-- `EnhancedRetryManager.get_enhanced_summary` from
`src/utils/enhanced_retry_manager.py`.  Note that the base counts come from
`self.get_summary()`, i.e. from the base `failed_months` dict. -/
def get_enhanced_summary (m : EnhancedRetryManager) : EnhancedSummary :=
  { base := get_summary m.toRetryManager
    validation_only_failures := (get_validation_only_retries m).length
    full_retry_needed := (get_full_retries m).length
    stage_export_count := ((values m.enhanced_failed_months).filter
      (fun f => f.failed_stage == ProcessingStage.EXPORT)).length
    stage_validation_count := ((values m.enhanced_failed_months).filter
      (fun f => f.failed_stage == ProcessingStage.VALIDATION)).length }

/-! ### Unit Processor (`MonthProcessor.process_month`, `src/core/month_processor.py`)

The collaborators (connection scope, query executor, dataframe conversion,
file export, artifact loading, and the authoritative-sum extraction of
`_validate_data` / `_calculate_dataframe_sum`) are modelled as outcome
parameters: each is either a value or the message of the exception it raises.
-/

/-- Summary of an in-memory dataframe: its row count, memory estimate, and
the amount sum `_calculate_dataframe_sum` computes from it. -/
structure TableData where
  rows : Nat
  memory_mb : ℚ
  dfSum : ℚ
deriving DecidableEq, Repr

/-- Outcomes of the collaborator calls made during one `process_month`
attempt. -/
structure AttemptEnv where
  /-- `PowerBIConnection(self.config)` scope entry: `none` when it opens,
  `some msg` when it raises. -/
  connect_fail : Option String
  /-- The `_extract_and_export` query + `convert_to_dataframe` composite. -/
  extract : Except String TableData
  /-- The `_export_data` call (raises or succeeds). -/
  export_step : Except String Unit
  /-- The `_validate_data` authoritative-query composite: the `dax_sum`
  obtained (including the 0.0 fallback), or the exception message. -/
  daxSum : Except String ℚ
  /-- The `_load_existing_data` call of validation-only mode. -/
  loadArtifact : Except String TableData

/-- The validation stage at the end of `MonthProcessor.process_month`:
sets `last_stage := VALIDATION`, runs `_validate_data` (appending one
validation record), then marks the result validated and `COMPLETE`.
`process_month` ignores the `validation_passed` flag of the record. -/
def process_month_validation (env : AttemptEnv) (year month : Int)
    (r : MonthResult) (tbl : TableData) : MonthResult × List ValidationRecord :=
  let r := { r with last_stage := ProcessingStage.VALIDATION }
  match env.daxSum with
  | Except.error e => ({ r with error_message := some e }, [])
  | Except.ok dax =>
      let vrec := validate_month year month dax tbl.dfSum tbl.rows
      ({ r with validation_success := true,
                last_stage := ProcessingStage.COMPLETE }, [vrec])

/-- `MonthProcessor.process_month` from `src/core/month_processor.py`,
returning the `MonthResult` together with the validation records appended to
the Reconciliation Engine during the attempt.  Any collaborator exception is
caught at the boundary: the result keeps the stage reached so far and records
the message. -/
def process_month (env : AttemptEnv) (year month : Int)
    (retry_stage : Option ProcessingStage := none)
    (existing_data_path : Option String := none) :
    MonthResult × List ValidationRecord :=
  let result : MonthResult := { year := year, month := month }
  match env.connect_fail with
  | some e => ({ result with error_message := some e }, [])
  | none =>
    if retry_stage = some ProcessingStage.VALIDATION
        && optTruthy existing_data_path then
      -- Only retry validation
      match env.loadArtifact with
      | Except.error e => ({ result with error_message := some e }, [])
      | Except.ok df =>
          let r := { result with export_success := true, rows := df.rows,
                                 memory_mb := df.memory_mb }
          process_month_validation env year month r df
    else
      -- Full processing (export + validation), `_extract_and_export`
      match env.extract with
      | Except.error e => ({ result with error_message := some e }, [])
      | Except.ok df =>
          if df.rows = 0 then
            -- "Not a failure, just no data": early return, rows stay 0
            ({ result with export_success := true }, [])
          else
            let r := { result with rows := df.rows, memory_mb := df.memory_mb }
            match env.export_step with
            | Except.error e => ({ r with error_message := some e }, [])
            | Except.ok _ =>
                let r := { r with export_success := true }
                process_month_validation env year month r df

/-! ### Orchestrator result handling (`PipelineOrchestrator`, `src/core/pipeline_orchestrator.py`) -/

/-- The orchestrator attributes touched by `_handle_month_result`. -/
structure OrchestratorState where
  total_rows : Nat := 0
  total_memory : ℚ := 0
  retry_manager : EnhancedRetryManager
deriving DecidableEq, Repr

/-- `PipelineOrchestrator._handle_month_result`: a `COMPLETE` result counts
as success; anything else is recorded in the (enhanced) Failure Ledger.
`exported_path` stands for `_get_exported_file_path`'s filesystem probe and
`now` for `datetime.now()`. -/
def handle_month_result (st : OrchestratorState) (result : MonthResult)
    (exported_path : Option String) (now : Timestamp) : OrchestratorState :=
  if result.last_stage = ProcessingStage.COMPLETE then
    { st with total_rows := st.total_rows + result.rows,
              total_memory := st.total_memory + result.memory_mb }
  else
    { st with retry_manager :=
        add_failure_from_result st.retry_manager result exported_path now }

/-! ### ISO-8601 rendering and parsing (`datetime.isoformat` / `fromisoformat`)

`datetime.isoformat()` renders `YYYY-MM-DDTHH:MM:SS` and appends `.ffffff`
exactly when the microsecond field is nonzero; `datetime.fromisoformat`
parses such strings back.  The parser below is the restriction of
`fromisoformat` to strings produced by `isoformat`.
-/

/-- The character of a decimal digit (code point 48 is `0`). -/
def digitChar (d : Nat) : Char := Char.ofNat (48 + d)

/-- The value of a decimal digit character, `none` on anything else. -/
def digitVal (c : Char) : Option Nat :=
  if 48 ≤ c.toNat ∧ c.toNat ≤ 57 then some (c.toNat - 48) else none

/-- The `k` low-order decimal digits of `n`, most significant first
(zero-padded rendering, `%0kd`). -/
def digitChars : Nat → Nat → List Char
  | 0, _ => []
  | k + 1, n => digitChar (n / 10 ^ k % 10) :: digitChars k (n % 10 ^ k)

/-- Read exactly `k` decimal digits, accumulating their value. -/
def parseNatAux : Nat → Nat → List Char → Option (Nat × List Char)
  | 0, acc, l => some (acc, l)
  | _ + 1, _, [] => none
  | k + 1, acc, c :: l =>
      match digitVal c with
      | some d => parseNatAux k (acc * 10 + d) l
      | none => none

/-- Consume one expected character. -/
def expectChar (c : Char) : List Char → Option (List Char)
  | [] => none
  | x :: l => if x = c then some l else none

/-- `datetime.isoformat()` as a character list. -/
def isoChars (t : Timestamp) : List Char :=
  digitChars 4 t.year ++ '-' ::
    (digitChars 2 t.month ++ '-' ::
      (digitChars 2 t.day ++ 'T' ::
        (digitChars 2 t.hour ++ ':' ::
          (digitChars 2 t.minute ++ ':' ::
            (digitChars 2 t.second ++
              (if t.microsecond = 0 then []
               else '.' :: digitChars 6 t.microsecond))))))

/-- `datetime.isoformat()`. -/
def isoformat (t : Timestamp) : String := String.mk (isoChars t)

/-- `datetime.fromisoformat` on character lists (restricted to the
`isoformat` output format); `none` models the `ValueError` it raises. -/
def parseTimestampChars (l : List Char) : Option Timestamp := do
  let (y, l) ← parseNatAux 4 0 l
  let l ← expectChar '-' l
  let (mo, l) ← parseNatAux 2 0 l
  let l ← expectChar '-' l
  let (d, l) ← parseNatAux 2 0 l
  let l ← expectChar 'T' l
  let (h, l) ← parseNatAux 2 0 l
  let l ← expectChar ':' l
  let (mi, l) ← parseNatAux 2 0 l
  let l ← expectChar ':' l
  let (s, l) ← parseNatAux 2 0 l
  match l with
  | [] => some ⟨y, mo, d, h, mi, s, 0⟩
  | '.' :: l2 =>
      match parseNatAux 6 0 l2 with
      | some (us, []) => some ⟨y, mo, d, h, mi, s, us⟩
      | _ => none
  | _ => none

/-- `datetime.fromisoformat`. -/
def fromisoformat (s : String) : Option Timestamp := parseTimestampChars s.data

/-! ### Persisted state (`FailedMonth.to_dict` / `from_dict`, `src/utils/state_manager.py`) -/

/-- One entry of the persisted `failed_months` JSON array, as written by
`FailedMonth.to_dict` in `src/utils/retry_manager.py`. -/
structure FailedMonthDict where
  year : Int
  month : Int
  error_message : String
  error_type : String
  attempt_count : Nat
  last_attempt_time : String
  first_error_time : String
deriving DecidableEq, Repr

/-- `FailedMonth.to_dict`. -/
def FailedMonth.to_dict (fm : FailedMonth) : FailedMonthDict :=
  { year := fm.year
    month := fm.month
    error_message := fm.error_message
    error_type := errorTypeValue fm.error_type
    attempt_count := fm.attempt_count
    last_attempt_time := isoformat fm.last_attempt_time
    first_error_time := isoformat fm.first_error_time }

/-- `ErrorType(value)`: the enum constructor lookup by value string;
`none` models the `ValueError` on an unknown value. -/
def errorTypeOfValue (s : String) : Option ErrorType :=
  if s = "session_expired" then some ErrorType.SESSION_EXPIRED
  else if s = "connection_timeout" then some ErrorType.CONNECTION_TIMEOUT
  else if s = "memory_error" then some ErrorType.MEMORY_ERROR
  else if s = "data_error" then some ErrorType.DATA_ERROR
  else if s = "unknown" then some ErrorType.UNKNOWN
  else none

/-- `FailedMonth.from_dict`; `none` models the exceptions of
`ErrorType(...)` and `datetime.fromisoformat`. -/
def FailedMonth.from_dict (d : FailedMonthDict) : Option FailedMonth := do
  let et ← errorTypeOfValue d.error_type
  let lat ← fromisoformat d.last_attempt_time
  let fet ← fromisoformat d.first_error_time
  some { year := d.year
         month := d.month
         error_message := d.error_message
         error_type := et
         attempt_count := d.attempt_count
         last_attempt_time := lat
         first_error_time := fet }

/-- The persisted retry-state JSON document written by
`StateManager.save_retry_state` in `src/utils/state_manager.py`. -/
structure StateDoc where
  last_saved : String
  failed_months : List FailedMonthDict
  settings_max_retry_attempts : Nat
  settings_retry_delay_seconds : Int
deriving DecidableEq, Repr

/-- `StateManager.save_retry_state`: the document serialized to the state
file (`now` stands for `datetime.now()`). -/
def save_retry_state (m : RetryManager) (now : Timestamp) : StateDoc :=
  { last_saved := isoformat now
    failed_months := (values m.failed_months).map FailedMonth.to_dict
    settings_max_retry_attempts := m.max_retry_attempts
    settings_retry_delay_seconds := m.retry_delay_seconds }

/-- The entry-loading loop of `StateManager.load_retry_state`: each parsed
entry is stored under `(year, month)`; a parse failure aborts the loop
(the caught exception), keeping what was already inserted. -/
def loadEntries : List FailedMonthDict → List ((Int × Int) × FailedMonth) →
    Bool × List ((Int × Int) × FailedMonth)
  | [], acc => (true, acc)
  | d :: rest, acc =>
      match FailedMonth.from_dict d with
      | none => (false, acc)
      | some fm => loadEntries rest (insertEntry (fm.year, fm.month) fm acc)

/-- `StateManager.load_retry_state`: clears the manager's ledger and
repopulates it from the document; the `Bool` is the function's return value
(`False` when an entry fails to parse). -/
def load_retry_state (doc : StateDoc) (m : RetryManager) :
    Bool × RetryManager :=
  let (ok, fms) := loadEntries doc.failed_months []
  (ok, { m with failed_months := fms })

/-! ### Execution log and `_save_reports` (`src/utils/state_manager.py`, `src/core/pipeline_orchestrator.py`) -/

/-- One entry of the execution log written by
`StateManager.save_execution_log` from `PipelineOrchestrator._save_reports`. -/
structure ExecLogEntry where
  summary : EnhancedSummary
  total_rows : Nat
  total_memory_mb : ℚ
  timestamp : String
deriving DecidableEq, Repr

/-- The files owned by the State Store: the retry-state document (present or
absent on disk), the execution log, and whether a validation report file has
been written. -/
structure PersistedStore where
  retry_state : Option StateDoc := none
  execution_log : List ExecLogEntry := []
  validation_report_saved : Bool := false
deriving DecidableEq, Repr

/-- The last `n` elements of a list (Python `logs[-100:]`). -/
def takeLastN {α : Type} (n : Nat) (l : List α) : List α :=
  l.drop (l.length - n)

/-- `StateManager.save_execution_log`: append the entry and keep only the
last 100 entries. -/
def save_execution_log (log : List ExecLogEntry) (entry : ExecLogEntry) :
    List ExecLogEntry :=
  takeLastN 100 (log ++ [entry])

/-- `StateManager.clear_state`: remove the state file. -/
def clear_state (store : PersistedStore) : PersistedStore :=
  { store with retry_state := none }

/-- `PipelineOrchestrator._save_reports` from
`src/core/pipeline_orchestrator.py`: save the validation report when there
are validation results, persist the retry state, and append an
execution-summary log entry.  (The Excel content of the validation report is
collaborator I/O; only the fact that it is written is modelled.) -/
def save_reports (st : OrchestratorState)
    (validation_results : List ValidationRecord) (store : PersistedStore)
    (now : Timestamp) : PersistedStore :=
  let store :=
    if validation_results ≠ [] then
      { store with validation_report_saved := true }
    else store
  let doc := save_retry_state st.retry_manager.toRetryManager now
  let store := { store with retry_state := some doc }
  let entry : ExecLogEntry :=
    { summary := get_enhanced_summary st.retry_manager
      total_rows := st.total_rows
      total_memory_mb := st.total_memory
      timestamp := isoformat now }
  { store with execution_log := save_execution_log store.execution_log entry }

/-! ## Claim theorems -/

/-- C6: `validate_month` passes if and only if
`|dax_sum - dataframe_sum| / dax_sum < 0.0001` when `dax_sum ≠ 0`, and when
`dax_sum = 0` the percentage difference is defined as 0 so validation
trivially passes. -/
theorem C6_validate_month_tolerance (year month : Int) (dax df : ℚ)
    (rc : Nat) :
    (dax ≠ 0 →
      ((validate_month year month dax df rc).validation_passed = true ↔
        |dax - df| / dax < 1 / 10000)) ∧
    (dax = 0 →
      (validate_month year month dax df rc).percentage_difference = 0 ∧
      (validate_month year month dax df rc).validation_passed = true) := by
  constructor
  · intro h
    simp only [validate_month, if_pos h, decide_eq_true_eq, pyAbs_eq_abs]
    constructor <;> intro h2 <;> linarith
  · intro h
    simp [validate_month, h]

/-- C6 witness: the spec's two examples.  `1000.05` is `20001/20`; the
difference `0.05` gives a `0.005%` difference and passes, while `1001` gives
`0.1%` and fails. -/
theorem C6_validate_month_tolerance_witness :
    ((1000 : ℚ) ≠ 0 ∧
      ((validate_month 2025 7 1000 (20001/20) 5).validation_passed = true ↔
        |(1000 : ℚ) - 20001/20| / 1000 < 1 / 10000)) ∧
    (validate_month 2025 7 1000 (20001/20) 5).percentage_difference = 1/200 ∧
    (validate_month 2025 7 1000 (20001/20) 5).validation_passed = true ∧
    (validate_month 2025 7 1000 1001 5).percentage_difference = 1/10 ∧
    (validate_month 2025 7 1000 1001 5).validation_passed = false := by
  refine ⟨⟨by norm_num,
    (C6_validate_month_tolerance 2025 7 1000 (20001/20) 5).1 (by norm_num)⟩,
    ?_, ?_, ?_, ?_⟩ <;>
      norm_num [validate_month, pyAbs_eq_abs, abs_neg, abs_of_nonneg]

/-- C7: the classifier is a total function on messages, performs
case-insensitive substring matching of the keyword groups in the fixed
priority order session > timeout > memory > data, returns the category of
the first matching group, and returns `UNKNOWN` when no group matches; a
message containing a session keyword is classified `SESSION_EXPIRED` even
when it also matches a lower-priority group. -/
theorem C7_categorize_error_priority (msg : String) :
    (sessionKeywords.any (fun k => containsSubstr k (lowerStr msg)) = true →
      categorize_error msg = ErrorType.SESSION_EXPIRED) ∧
    (sessionKeywords.any (fun k => containsSubstr k (lowerStr msg)) = false →
      timeoutKeywords.any (fun k => containsSubstr k (lowerStr msg)) = true →
      categorize_error msg = ErrorType.CONNECTION_TIMEOUT) ∧
    (sessionKeywords.any (fun k => containsSubstr k (lowerStr msg)) = false →
      timeoutKeywords.any (fun k => containsSubstr k (lowerStr msg)) = false →
      memoryKeywords.any (fun k => containsSubstr k (lowerStr msg)) = true →
      categorize_error msg = ErrorType.MEMORY_ERROR) ∧
    (sessionKeywords.any (fun k => containsSubstr k (lowerStr msg)) = false →
      timeoutKeywords.any (fun k => containsSubstr k (lowerStr msg)) = false →
      memoryKeywords.any (fun k => containsSubstr k (lowerStr msg)) = false →
      dataKeywords.any (fun k => containsSubstr k (lowerStr msg)) = true →
      categorize_error msg = ErrorType.DATA_ERROR) ∧
    (sessionKeywords.any (fun k => containsSubstr k (lowerStr msg)) = false →
      timeoutKeywords.any (fun k => containsSubstr k (lowerStr msg)) = false →
      memoryKeywords.any (fun k => containsSubstr k (lowerStr msg)) = false →
      dataKeywords.any (fun k => containsSubstr k (lowerStr msg)) = false →
      categorize_error msg = ErrorType.UNKNOWN) ∧
    (categorize_error msg = ErrorType.SESSION_EXPIRED ∨
      categorize_error msg = ErrorType.CONNECTION_TIMEOUT ∨
      categorize_error msg = ErrorType.MEMORY_ERROR ∨
      categorize_error msg = ErrorType.DATA_ERROR ∨
      categorize_error msg = ErrorType.UNKNOWN) := by
  refine ⟨?_, ?_, ?_, ?_, ?_, ?_⟩
  · intro h1; simp [categorize_error, h1]
  · intro h1 h2; simp [categorize_error, h1, h2]
  · intro h1 h2 h3; simp [categorize_error, h1, h2, h3]
  · intro h1 h2 h3 h4; simp [categorize_error, h1, h2, h3, h4]
  · intro h1 h2 h3 h4; simp [categorize_error, h1, h2, h3, h4]
  · cases hc : categorize_error msg <;> simp [hc]

/-- C7 witness: `"Session DATA error"` matches both a session keyword and a
data keyword (case-insensitively); the session group wins. -/
theorem C7_categorize_error_priority_witness :
    sessionKeywords.any
        (fun k => containsSubstr k (lowerStr "Session DATA error")) = true ∧
    dataKeywords.any
        (fun k => containsSubstr k (lowerStr "Session DATA error")) = true ∧
    categorize_error "Session DATA error" = ErrorType.SESSION_EXPIRED :=
  ⟨by decide, by decide,
    (C7_categorize_error_priority "Session DATA error").1 (by decide)⟩

/-- C8: `get_retry_delay` returns `min(base_delay, 10)` for
`SESSION_EXPIRED`, `base_delay * attempt_count` for `CONNECTION_TIMEOUT`,
`2 * base_delay * attempt_count` for `MEMORY_ERROR`, and `base_delay` for
every other category; with a nonnegative base delay (the source always
configures 30) the delay is monotonically non-decreasing in `attempt_count`
for `CONNECTION_TIMEOUT` and `MEMORY_ERROR` and constant in `attempt_count`
for the remaining categories. -/
theorem C8_get_retry_delay_policy (m : RetryManager) (fm fm2 : FailedMonth)
    (hb : 0 ≤ m.retry_delay_seconds) :
    (fm.error_type = ErrorType.SESSION_EXPIRED →
      get_retry_delay m fm = min m.retry_delay_seconds 10) ∧
    (fm.error_type = ErrorType.CONNECTION_TIMEOUT →
      get_retry_delay m fm = m.retry_delay_seconds * fm.attempt_count) ∧
    (fm.error_type = ErrorType.MEMORY_ERROR →
      get_retry_delay m fm = 2 * m.retry_delay_seconds * fm.attempt_count) ∧
    (fm.error_type = ErrorType.DATA_ERROR ∨ fm.error_type = ErrorType.UNKNOWN →
      get_retry_delay m fm = m.retry_delay_seconds) ∧
    (fm2.error_type = fm.error_type → fm.attempt_count ≤ fm2.attempt_count →
      ((fm.error_type = ErrorType.CONNECTION_TIMEOUT ∨
          fm.error_type = ErrorType.MEMORY_ERROR) →
        get_retry_delay m fm ≤ get_retry_delay m fm2) ∧
      ((fm.error_type = ErrorType.SESSION_EXPIRED ∨
          fm.error_type = ErrorType.DATA_ERROR ∨
          fm.error_type = ErrorType.UNKNOWN) →
        get_retry_delay m fm = get_retry_delay m fm2)) := by
  have hcast : ∀ a b : Nat, a ≤ b → (a : Int) ≤ (b : Int) := by
    intro a b h; exact_mod_cast h
  refine ⟨?_, ?_, ?_, ?_, ?_⟩
  · intro h; simp [get_retry_delay, h]
  · intro h; simp [get_retry_delay, h]
  · intro h; simp [get_retry_delay, h, mul_comm, mul_assoc, mul_left_comm]
  · rintro (h | h) <;> simp [get_retry_delay, h]
  · intro heq hle
    constructor
    · rintro (h | h) <;> simp [get_retry_delay, h, heq.trans h]
      · exact mul_le_mul_of_nonneg_left (hcast _ _ hle) hb
      · exact mul_le_mul_of_nonneg_left (hcast _ _ hle) (by linarith)
    · rintro (h | h | h) <;> simp [get_retry_delay, h, heq.trans h]

/-- C8 witness: a `MEMORY_ERROR` entry with base delay 30, attempts 2 and 3:
delays 120 and 180. -/
theorem C8_get_retry_delay_policy_witness :
    (0 : Int) ≤ (30 : Int) ∧
    (ErrorType.MEMORY_ERROR = ErrorType.MEMORY_ERROR →
      get_retry_delay { max_retry_attempts := 5, retry_delay_seconds := 30 }
          { year := 2025, month := 1, error_message := "out of memory",
            error_type := ErrorType.MEMORY_ERROR, attempt_count := 2,
            last_attempt_time := ⟨2025, 1, 1, 0, 0, 0, 0⟩,
            first_error_time := ⟨2025, 1, 1, 0, 0, 0, 0⟩ }
        = 2 * 30 * 2) := by
  refine ⟨by norm_num, fun _ => ?_⟩
  have h := (C8_get_retry_delay_policy
      { max_retry_attempts := 5, retry_delay_seconds := 30 }
      { year := 2025, month := 1, error_message := "out of memory",
        error_type := ErrorType.MEMORY_ERROR, attempt_count := 2,
        last_attempt_time := ⟨2025, 1, 1, 0, 0, 0, 0⟩,
        first_error_time := ⟨2025, 1, 1, 0, 0, 0, 0⟩ }
      { year := 2025, month := 1, error_message := "out of memory",
        error_type := ErrorType.MEMORY_ERROR, attempt_count := 3,
        last_attempt_time := ⟨2025, 1, 1, 0, 0, 0, 0⟩,
        first_error_time := ⟨2025, 1, 1, 0, 0, 0, 0⟩ }
      (by norm_num)).2.2.1 rfl
  rw [h]; norm_num


/-- Length of the window. -/
theorem calculate_12_month_range_length (ey em : Int) :
    (calculate_12_month_range ey em).length = 12 := by
  simp only [calculate_12_month_range, List.length_reverse, List.length_map,
    List.length_range]

/-- Index formula for the window: the `j`-th element (chronological order)
is the normalized month `em - (11 - j)`. -/
theorem calculate_12_month_range_get (ey em : Int) (j : Nat)
    (hj : j < (calculate_12_month_range ey em).length) :
    (calculate_12_month_range ey em).get ⟨j, hj⟩ =
      fixMonth ey (em - (11 - (j : Int))) := by
  have hj12 : j < 12 := by
    rw [calculate_12_month_range_length] at hj; exact hj
  simp only [calculate_12_month_range, List.get_eq_getElem] at hj ⊢
  rw [List.getElem_reverse, List.getElem_map, List.getElem_range]
  simp only [List.length_map, List.length_range]
  congr 1
  omega

/-- C10: for `1 ≤ end_month ≤ 12` the window has exactly 12 entries, its last
entry is `(end_year, end_month)`, every entry has a month in `1..12`, and the
`j`-th entry's linear month index `year * 12 + month` is exactly `11 - j`
months before the end period's — i.e. the entries are consecutive calendar
months in chronological order ending at the end period. -/
theorem C10_calculate_12_month_range_window (ey em : Int)
    (h1 : 1 ≤ em) (h2 : em ≤ 12) :
    (calculate_12_month_range ey em).length = 12 ∧
    (∀ hj : 11 < (calculate_12_month_range ey em).length,
      (calculate_12_month_range ey em).get ⟨11, hj⟩ = (ey, em)) ∧
    (∀ (j : Nat) (hj : j < (calculate_12_month_range ey em).length),
      1 ≤ ((calculate_12_month_range ey em).get ⟨j, hj⟩).2 ∧
      ((calculate_12_month_range ey em).get ⟨j, hj⟩).2 ≤ 12 ∧
      ((calculate_12_month_range ey em).get ⟨j, hj⟩).1 * 12 +
          ((calculate_12_month_range ey em).get ⟨j, hj⟩).2 =
        ey * 12 + em - (11 - (j : Int))) := by
  refine ⟨calculate_12_month_range_length ey em, ?_, ?_⟩
  · intro hj
    rw [calculate_12_month_range_get]
    norm_num
    exact fixMonth_pos ey em (by omega)
  · intro j hj
    have hj12 : j < 12 := by
      rw [calculate_12_month_range_length] at hj; exact hj
    rw [calculate_12_month_range_get]
    by_cases hm : em - (11 - (j : Int)) ≤ 0
    · rw [fixMonth_nonpos ey _ hm (by omega)]
      dsimp only
      refine ⟨by omega, by omega, by omega⟩
    · rw [fixMonth_pos ey _ (by omega)]
      dsimp only
      refine ⟨by omega, by omega, by omega⟩

/-- C10 witness: the window ending at 2025-07 is 2024-08 .. 2025-07. -/
theorem C10_calculate_12_month_range_window_witness :
    (1 ≤ (7 : Int) ∧ (7 : Int) ≤ 12 ∧
      (calculate_12_month_range 2025 7).length = 12) ∧
    calculate_12_month_range 2025 7 =
      [(2024, 8), (2024, 9), (2024, 10), (2024, 11), (2024, 12), (2025, 1),
       (2025, 2), (2025, 3), (2025, 4), (2025, 5), (2025, 6), (2025, 7)] :=
  ⟨⟨by norm_num, by norm_num,
    (C10_calculate_12_month_range_window 2025 7 (by norm_num) (by norm_num)).1⟩,
   by decide⟩

/-! ### Concrete fixtures for the orchestrator-level claims -/

/-- A fixed `datetime.now()` value for concrete runs. -/
def ts0 : Timestamp := ⟨2025, 1, 1, 0, 0, 0, 0⟩

/-- An orchestrator state with empty ledgers and zero counters (the state at
the start of a run, with the source's configuration `max_retry_attempts = 5`,
`retry_delay_seconds = 30`). -/
def emptyOrchestratorState : OrchestratorState :=
  { total_rows := 0
    total_memory := 0
    retry_manager := { max_retry_attempts := 5, retry_delay_seconds := 30 } }

/-- Collaborator outcomes for an attempt whose extraction succeeds with 10
rows and a dataframe sum of 500, and whose authoritative query returns 1000:
a 50% reconciliation mismatch, far beyond the 0.01% tolerance. -/
def envMismatch : AttemptEnv :=
  { connect_fail := none
    extract := Except.ok ⟨10, 1, 500⟩
    export_step := Except.ok ()
    daxSum := Except.ok 1000
    loadArtifact := Except.error "not used in full mode" }

/-- Collaborator outcomes for an attempt whose extraction succeeds with an
empty table (zero rows). -/
def envEmptyTable : AttemptEnv :=
  { connect_fail := none
    extract := Except.ok ⟨0, 0, 0⟩
    export_step := Except.ok ()
    daxSum := Except.ok 0
    loadArtifact := Except.error "not used in full mode" }

/-- C1 (code bug): on a 50% reconciliation mismatch the Reconciliation Engine
records `validation_passed = false`, yet `process_month` still returns
`last_stage = COMPLETE` with `validation_success = true` (it ignores the
record's flag), and `_handle_month_result` therefore treats the month as a
success and never enters it into the Failure Ledger — contradicting the
claim that the result keeps `last_stage = VALIDATION` and is treated as a
failure. -/
theorem C1_validation_mismatch_marked_complete :
    (process_month envMismatch 2025 1 none none).2 =
      [validate_month 2025 1 1000 500 10] ∧
    (validate_month 2025 1 1000 500 10).validation_passed = false ∧
    (validate_month 2025 1 1000 500 10).percentage_difference = 50 ∧
    (process_month envMismatch 2025 1 none none).1.last_stage =
      ProcessingStage.COMPLETE ∧
    (process_month envMismatch 2025 1 none none).1.validation_success = true ∧
    (handle_month_result emptyOrchestratorState
        (process_month envMismatch 2025 1 none none).1 none
        ts0).retry_manager.enhanced_failed_months = [] := by
  refine ⟨rfl, ?_, ?_, rfl, rfl, rfl⟩ <;>
    norm_num [validate_month, pyAbs]

/-- C2 (code bug): a zero-row extraction returns early with
`export_success = true` and `rows = 0` as claimed, but the early return keeps
`last_stage = EXPORT`, so `_handle_month_result` takes the failure branch and
inserts the month into the Failure Ledger — contradicting the claim that such
a unit is never enqueued there. -/
theorem C2_empty_extraction_enqueued_as_failure :
    (process_month envEmptyTable 2025 2 none none).1.export_success = true ∧
    (process_month envEmptyTable 2025 2 none none).1.rows = 0 ∧
    (process_month envEmptyTable 2025 2 none none).1.error_message = none ∧
    (process_month envEmptyTable 2025 2 none none).1.last_stage =
      ProcessingStage.EXPORT ∧
    (handle_month_result emptyOrchestratorState
        (process_month envEmptyTable 2025 2 none none).1 none
        ts0).retry_manager.enhanced_failed_months.length = 1 ∧
    hasKey (2025, 2)
      (handle_month_result emptyOrchestratorState
          (process_month envEmptyTable 2025 2 none none).1 none
          ts0).retry_manager.enhanced_failed_months = true :=
  ⟨rfl, rfl, rfl, rfl, rfl, rfl⟩

/-- An entry that failed at VALIDATION with a successful export but no
recorded artifact path: eligible by attempt count, yet in neither candidate
list. -/
def efmNoPath : EnhancedFailedMonth :=
  { year := 2025
    month := 3
    error_message := "validation mismatch"
    error_type := ErrorType.UNKNOWN
    failed_stage := ProcessingStage.VALIDATION
    attempt_count := 1
    last_attempt_time := ts0
    first_error_time := ts0
    export_success := true
    validation_success := false
    exported_file_path := none }

/-- A ledger holding only `efmNoPath`. -/
def mgrNoPath : EnhancedRetryManager :=
  { max_retry_attempts := 5
    retry_delay_seconds := 30
    failed_months := []
    enhanced_failed_months := [((2025, 3), efmNoPath)] }

/-- C3 counterexample: `efmNoPath` has `attempt_count < max_retry_attempts`
and is not a validation-only candidate (no artifact path), so the claim says
it appears in the full-retry list — but both candidate lists are empty:
`should_retry_full` is false because its stage is VALIDATION and its export
succeeded. -/
theorem C3_retry_candidate_partition_counterexample :
    efmNoPath.attempt_count < mgrNoPath.max_retry_attempts ∧
    ¬(efmNoPath.failed_stage = ProcessingStage.VALIDATION ∧
        efmNoPath.export_success = true ∧
        efmNoPath.exported_file_path.isSome = true) ∧
    efmNoPath ∈ values mgrNoPath.enhanced_failed_months ∧
    get_validation_only_retries mgrNoPath = [] ∧
    get_full_retries mgrNoPath = [] := by
  refine ⟨by decide, by decide, ?_, by decide, by decide⟩
  simp [values, mgrNoPath]

/-- C3 amended: among entries with `attempt_count < max_retry_attempts`, the
validation-only list holds exactly those with `failed_stage = VALIDATION`,
`export_success = true` and a recorded artifact path, while the full-retry
list holds exactly those with `failed_stage = EXPORT` or
`export_success = false`; an entry with `failed_stage = VALIDATION`,
`export_success = true` and no artifact path is in neither list. -/
theorem C3_retry_candidate_partition_amended (m : EnhancedRetryManager)
    (e : EnhancedFailedMonth) :
    (e ∈ get_validation_only_retries m ↔
      e ∈ values m.enhanced_failed_months ∧
      e.attempt_count < m.max_retry_attempts ∧
      e.failed_stage = ProcessingStage.VALIDATION ∧
      e.export_success = true ∧
      e.exported_file_path.isSome = true) ∧
    (e ∈ get_full_retries m ↔
      e ∈ values m.enhanced_failed_months ∧
      e.attempt_count < m.max_retry_attempts ∧
      (e.failed_stage = ProcessingStage.EXPORT ∨
        e.export_success = false)) := by
  constructor
  · simp only [get_validation_only_retries, List.mem_filter,
      EnhancedFailedMonth.should_retry_validation_only, Bool.and_eq_true,
      beq_iff_eq, decide_eq_true_eq, Option.isSome_iff_exists]
    tauto
  · simp only [get_full_retries, List.mem_filter,
      EnhancedFailedMonth.should_retry_full, Bool.and_eq_true,
      Bool.or_eq_true, beq_iff_eq, Bool.not_eq_true', decide_eq_true_eq]
    tauto

/-- The failed result the orchestrator records for C4's scenario. -/
def mrBoom : MonthResult :=
  { year := 2025, month := 1, error_message := some "boom" }

/-- C4 (code bug): after recording a failure through
`add_failure_from_result` the enhanced ledger holds one entry, yet
`get_enhanced_summary` reports `total_failures = 0` with no error breakdown —
its base counts come from the base `failed_months` dict, which
`add_failure_from_result` never populates — even though its own stage-aware
counts see the entry (`full_retry_needed = 1`). -/
theorem C4_enhanced_summary_counts_wrong_ledger :
    (add_failure_from_result emptyOrchestratorState.retry_manager mrBoom none
        ts0).enhanced_failed_months.length = 1 ∧
    (get_enhanced_summary (add_failure_from_result
        emptyOrchestratorState.retry_manager mrBoom none
        ts0)).base.total_failures = 0 ∧
    (get_enhanced_summary (add_failure_from_result
        emptyOrchestratorState.retry_manager mrBoom none
        ts0)).base.error_breakdown = none ∧
    (get_enhanced_summary (add_failure_from_result
        emptyOrchestratorState.retry_manager mrBoom none
        ts0)).base.max_attempts_reached = none ∧
    (get_enhanced_summary (add_failure_from_result
        emptyOrchestratorState.retry_manager mrBoom none
        ts0)).full_retry_needed = 1 := by
  refine ⟨rfl, rfl, rfl, rfl, rfl⟩

/-- C5 counterexample: a completed run with no failures remaining in either
ledger still leaves a retry-state document in the store after
`_save_reports` — nothing in `PipelineOrchestrator` calls `clear_state`. -/
theorem C5_save_reports_counterexample :
    emptyOrchestratorState.retry_manager.enhanced_failed_months = [] ∧
    emptyOrchestratorState.retry_manager.failed_months = [] ∧
    (save_reports emptyOrchestratorState [] { retry_state := none }
        ts0).retry_state ≠ none ∧
    (save_reports emptyOrchestratorState [] { retry_state := none }
        ts0).retry_state =
      some (save_retry_state emptyOrchestratorState.retry_manager.toRetryManager
        ts0) := by
  refine ⟨rfl, rfl, ?_, rfl⟩
  intro h
  simp [save_reports] at h

/-- C5 amended: on DONE with no failures remaining the orchestrator persists
the final retry state and appends an execution-summary log entry, but it does
not clear the persisted retry-state document — the document survives (holding
an empty `failed_months` array). -/
theorem C5_save_reports_amended (st : OrchestratorState)
    (valres : List ValidationRecord) (store : PersistedStore) (now : Timestamp)
    (_h1 : st.retry_manager.enhanced_failed_months = [])
    (_h2 : st.retry_manager.failed_months = []) :
    (save_reports st valres store now).retry_state =
      some (save_retry_state st.retry_manager.toRetryManager now) ∧
    (save_reports st valres store now).execution_log =
      save_execution_log store.execution_log
        { summary := get_enhanced_summary st.retry_manager
          total_rows := st.total_rows
          total_memory_mb := st.total_memory
          timestamp := isoformat now } ∧
    (save_reports st valres store now).retry_state ≠ none := by
  by_cases hv : valres = [] <;>
    simp [save_reports, hv]

/-- C5 amended witness: the concrete empty run. -/
theorem C5_save_reports_amended_witness :
    emptyOrchestratorState.retry_manager.enhanced_failed_months = [] ∧
    (save_reports emptyOrchestratorState []
        { retry_state := none, execution_log := [] } ts0).retry_state =
      some (save_retry_state
        emptyOrchestratorState.retry_manager.toRetryManager ts0) :=
  ⟨rfl, (C5_save_reports_amended emptyOrchestratorState []
    { retry_state := none, execution_log := [] } ts0 rfl rfl).1⟩

/-! ### Round-trip lemmas for the persisted format -/

/-- Decimal digits round-trip through their characters. -/
theorem digitVal_digitChar (d : Nat) (h : d < 10) :
    digitVal (digitChar d) = some d := by
  interval_cases d <;> decide

/-- Reading back `k` zero-padded digits recovers `n % 10^k` and leaves the
rest of the input untouched. -/
theorem parseNatAux_digitChars (k : Nat) :
    ∀ (acc n : Nat) (rest : List Char),
      parseNatAux k acc (digitChars k n ++ rest) =
        some (acc * 10 ^ k + n % 10 ^ k, rest) := by
  induction k with
  | zero =>
      intro acc n rest
      simp [digitChars, parseNatAux, Nat.mod_one]
  | succ k ih =>
      intro acc n rest
      have hd : n / 10 ^ k % 10 < 10 := Nat.mod_lt _ (by norm_num)
      rw [digitChars, List.cons_append, parseNatAux,
        digitVal_digitChar _ hd]
      dsimp only
      rw [ih]
      have hp : 0 < 10 ^ k := Nat.pos_pow_of_pos k (by norm_num)
      have hmod : n % 10 ^ k % 10 ^ k = n % 10 ^ k :=
        Nat.mod_eq_of_lt (Nat.mod_lt _ hp)
      have hmul : n % (10 ^ k * 10) = n % 10 ^ k + 10 ^ k * (n / 10 ^ k % 10) :=
        Nat.mod_mul
      rw [hmod]
      congr 1
      rw [pow_succ, hmul]
      ring_nf

/-- Reading back `k` zero-padded digits of `n < 10^k` recovers `n`. -/
theorem parseNatAux_digitChars_lt (k acc n : Nat) (rest : List Char)
    (h : n < 10 ^ k) :
    parseNatAux k acc (digitChars k n ++ rest) =
      some (acc * 10 ^ k + n, rest) := by
  rw [parseNatAux_digitChars, Nat.mod_eq_of_lt h]

set_option maxHeartbeats 1000000 in
/-- The parser inverts the renderer on every valid timestamp. -/
theorem parseTimestampChars_isoChars (t : Timestamp) (hv : t.Valid) :
    parseTimestampChars (isoChars t) = some t := by
  obtain ⟨h1, h2, h3, h4, h5, h6, h7⟩ := hv
  have pe : ∀ (c : Char) (r : List Char), expectChar c (c :: r) = some r := by
    intro c r; simp [expectChar]
  have p4 : ∀ r, parseNatAux 4 0 (digitChars 4 t.year ++ r) =
      some (t.year, r) := by
    intro r
    rw [parseNatAux_digitChars_lt _ _ _ _
      (by rw [show (10:Nat) ^ 4 = 10000 by norm_num]; exact h1)]
    norm_num
  have p2 : ∀ n : Nat, n < 100 → ∀ r,
      parseNatAux 2 0 (digitChars 2 n ++ r) = some (n, r) := by
    intro n hn r
    rw [parseNatAux_digitChars_lt _ _ _ _
      (by rw [show (10:Nat) ^ 2 = 100 by norm_num]; exact hn)]
    norm_num
  have p6 : ∀ r, parseNatAux 6 0 (digitChars 6 t.microsecond ++ r) =
      some (t.microsecond, r) := by
    intro r
    rw [parseNatAux_digitChars_lt _ _ _ _
      (by rw [show (10:Nat) ^ 6 = 1000000 by norm_num]; exact h7)]
    norm_num
  by_cases hus : t.microsecond = 0
  · simp only [parseTimestampChars, isoChars, hus, if_pos, p4, pe,
      p2 t.month h2, p2 t.day h3, p2 t.hour h4, p2 t.minute h5,
      p2 t.second h6, Option.bind_eq_bind, Option.some_bind]
    rw [← hus]
  · simp only [parseTimestampChars, isoChars, if_neg hus, p4, pe,
      p2 t.month h2, p2 t.day h3, p2 t.hour h4, p2 t.minute h5,
      p2 t.second h6, Option.bind_eq_bind, Option.some_bind]
    rw [show digitChars 6 t.microsecond =
      digitChars 6 t.microsecond ++ [] from (List.append_nil _).symm, p6]

/-- `fromisoformat` inverts `isoformat` on every valid timestamp. -/
theorem fromisoformat_isoformat (t : Timestamp) (hv : t.Valid) :
    fromisoformat (isoformat t) = some t :=
  parseTimestampChars_isoChars t hv

/-- `ErrorType(value)` inverts `ErrorType.value`. -/
theorem errorTypeOfValue_errorTypeValue (et : ErrorType) :
    errorTypeOfValue (errorTypeValue et) = some et := by
  cases et <;> rfl

/-- `FailedMonth.from_dict` inverts `FailedMonth.to_dict` when the entry's
timestamps are valid. -/
theorem from_dict_to_dict (fm : FailedMonth)
    (hl : fm.last_attempt_time.Valid) (hf : fm.first_error_time.Valid) :
    FailedMonth.from_dict fm.to_dict = some fm := by
  simp only [FailedMonth.from_dict, FailedMonth.to_dict,
    errorTypeOfValue_errorTypeValue, fromisoformat_isoformat _ hl,
    fromisoformat_isoformat _ hf, Option.bind_eq_bind, Option.some_bind]

/-- Inserting a fresh key appends the entry (Python dict insertion order). -/
theorem insertEntry_of_not_mem {α β : Type} [DecidableEq α] (k : α) (v : β)
    (l : List (α × β)) (h : k ∉ keysOf l) :
    insertEntry k v l = l ++ [(k, v)] := by
  induction l with
  | nil => rfl
  | cons head rest ih =>
      obtain ⟨k2, v2⟩ := head
      simp only [keysOf, List.map_cons, List.mem_cons] at h
      push_neg at h
      rw [insertEntry, if_neg (fun hk => h.1 hk.symm), List.cons_append,
        ih (by simpa [keysOf] using h.2)]

/-- Loading the serialized entries of a key-consistent, duplicate-free ledger
with valid timestamps succeeds and appends them, in order, to the
accumulator. -/
theorem loadEntries_map_to_dict :
    ∀ (fms acc : List ((Int × Int) × FailedMonth)),
      (∀ kv ∈ fms, kv.1 = (kv.2.year, kv.2.month)) →
      (∀ kv ∈ fms, kv.2.last_attempt_time.Valid ∧ kv.2.first_error_time.Valid) →
      (keysOf fms).Nodup →
      (∀ kv ∈ fms, kv.1 ∉ keysOf acc) →
      loadEntries (fms.map (fun kv => FailedMonth.to_dict kv.2)) acc =
        (true, acc ++ fms) := by
  intro fms
  induction fms with
  | nil => intro acc _ _ _ _; simp [loadEntries]
  | cons kv rest ih =>
      intro acc hkeys hts hnodup hdisj
      obtain ⟨k, fm⟩ := kv
      have hk : k = (fm.year, fm.month) := hkeys _ (List.mem_cons_self _ _)
      have hfm := hts _ (List.mem_cons_self _ _)
      have hknot : k ∉ keysOf acc := hdisj _ (List.mem_cons_self _ _)
      have hcons : keysOf ((k, fm) :: rest) = k :: keysOf rest := rfl
      rw [hcons] at hnodup
      have hkrest : k ∉ keysOf rest := (List.nodup_cons.mp hnodup).1
      rw [List.map_cons, loadEntries, from_dict_to_dict fm hfm.1 hfm.2]
      dsimp only
      rw [← hk, insertEntry_of_not_mem k fm acc hknot]
      rw [ih (acc ++ [(k, fm)])
        (fun kv hm => hkeys _ (List.mem_cons_of_mem _ hm))
        (fun kv hm => hts _ (List.mem_cons_of_mem _ hm))
        (List.nodup_cons.mp hnodup).2
        ?_]
      · simp
      · intro kv hm
        have h1 : kv.1 ∉ keysOf acc := hdisj _ (List.mem_cons_of_mem _ hm)
        have h2 : kv.1 ≠ k := by
          intro he
          exact hkrest (he ▸ (List.mem_map_of_mem Prod.fst hm))
        simp [keysOf, List.mem_append, h2]
        simpa [keysOf] using h1

/-- C9: serializing a Failure Ledger to the persisted document and reloading
it reproduces the ledger exactly — same `(year, month)` keys in the same
order, same attempt counts, same error categories, and timestamps equal at
full precision (hence at least to second precision) — provided the ledger
satisfies the dict invariants (keys match their entries and are
duplicate-free) and its timestamps are valid `datetime` renderings. -/
theorem C9_retry_state_roundtrip (m m2 : RetryManager) (now : Timestamp)
    (hkeys : ∀ kv ∈ m.failed_months, kv.1 = (kv.2.year, kv.2.month))
    (hnodup : (keysOf m.failed_months).Nodup)
    (hts : ∀ kv ∈ m.failed_months,
      kv.2.last_attempt_time.Valid ∧ kv.2.first_error_time.Valid) :
    load_retry_state (save_retry_state m now) m2 =
      (true, { m2 with failed_months := m.failed_months }) := by
  unfold load_retry_state save_retry_state
  simp only [values, List.map_map]
  rw [show (FailedMonth.to_dict ∘ Prod.snd : ((Int × Int) × FailedMonth) →
        FailedMonthDict) =
      (fun kv => FailedMonth.to_dict kv.2) from rfl]
  rw [loadEntries_map_to_dict m.failed_months [] hkeys hts hnodup
    (by simp [keysOf])]
  simp

/-- The two-entry ledger used to witness the round-trip. -/
def mgrRoundtrip : RetryManager :=
  { max_retry_attempts := 5
    retry_delay_seconds := 30
    failed_months :=
      [((2024, 12),
        { year := 2024, month := 12,
          error_message := "Connection either timed out",
          error_type := ErrorType.CONNECTION_TIMEOUT, attempt_count := 2,
          last_attempt_time := ⟨2025, 1, 2, 3, 4, 5, 123456⟩,
          first_error_time := ⟨2025, 1, 1, 0, 0, 0, 0⟩ }),
       ((2025, 1),
        { year := 2025, month := 1, error_message := "session expired",
          error_type := ErrorType.SESSION_EXPIRED, attempt_count := 1,
          last_attempt_time := ⟨2025, 1, 2, 3, 4, 6, 0⟩,
          first_error_time := ⟨2025, 1, 2, 3, 4, 6, 0⟩ })] }

/-- C9 witness: the concrete two-entry ledger (one timestamp with
microseconds, one without) reloads exactly into a fresh manager. -/
theorem C9_retry_state_roundtrip_witness :
    load_retry_state (save_retry_state mgrRoundtrip ts0)
        { max_retry_attempts := 5, retry_delay_seconds := 30 } =
      (true, { max_retry_attempts := 5, retry_delay_seconds := 30,
               failed_months := mgrRoundtrip.failed_months }) :=
  C9_retry_state_roundtrip mgrRoundtrip
    { max_retry_attempts := 5, retry_delay_seconds := 30 } ts0
    (by decide) (by decide) (by decide)
